import Mathlib

/-!
Verification of the live speech-segmentation engine of the terminal client
(`whisper_live.py`).  The core is `silent_observer`, a single step of the
segmentation state machine: it reads one frame, classifies it with VAD,
appends valid classified frames to the sentence buffer, and maintains the
timing fields `silence_start` (a timestamp, with `-1` as the "unset"
sentinel) and `did_speak` to decide when a sentence boundary occurs.

The embedding makes the step's external effects explicit: each call receives
the bytes the device read, the VAD outcome (`none` models the classifier
raising an exception), and the value of the monotonic clock at that call.
Timestamps are rationals; bytes are natural numbers in a list.
-/

/-- `SAMPLE_RATE = 16_000` (Hz). -/
def SAMPLE_RATE : Nat := 16000

/-- `FRAME_MS = 30` (milliseconds per frame). -/
def FRAME_MS : Nat := 30

/-- `FRAME_BYTES = int(SAMPLE_RATE * FRAME_MS / 1000) * 2`. -/
def FRAME_BYTES : Nat := (SAMPLE_RATE * FRAME_MS / 1000) * 2

/-- `MAX_SILENCE_BREAK = 0.6` (seconds of silence that end a sentence). -/
def MAX_SILENCE_BREAK : ℚ := 6 / 10

/-- The mutable timing fields of the observer: `silence_start` (the value
`-1` is the "unset" sentinel, as in the source) and `did_speak`. -/
structure TimingState where
  silence_start : ℚ
  did_speak : Bool
deriving DecidableEq, Repr

/-- What the outside world supplies to one `silent_observer` call:
the bytes returned by `stream.read` (`frame`), the outcome of
`vad.is_speech` (`none` models the classifier raising an exception),
and the value of `time.perf_counter()` during the call (`now`). -/
structure StepInput where
  frame : List Nat
  vadResult : Option Bool
  now : ℚ
deriving DecidableEq, Repr

/-- `refresh_observer`: reset the observer state for a new sentence
(`silence_start = -1`, `did_speak = False`). -/
def refresh_observer (_st : TimingState) : TimingState := ⟨-1, false⟩

/-- The timing fields as `start_observer` leaves them
(`silence_start = -1`, `did_speak = False`). -/
def start_observer_timing : TimingState := ⟨-1, false⟩

/-- One call of `silent_observer`, returning the new timing state, the new
sentence buffer and the boundary flag.  Mirrors the source line by line:
a short read returns unchanged; a VAD exception is caught and returns
unchanged; otherwise the frame is appended, and the speech/silence logic
updates `silence_start` / `did_speak`, declaring a boundary when
`now - silence_start >= MAX_SILENCE_BREAK`. -/
def silent_observer (st : TimingState) (sentence_buf : List Nat)
    (inp : StepInput) : TimingState × List Nat × Bool :=
  if inp.frame.length ≠ FRAME_BYTES then
    (st, sentence_buf, false)
  else
    match inp.vadResult with
    | none => (st, sentence_buf, false)
    | some is_speech =>
      let buf := sentence_buf ++ inp.frame
      if is_speech then
        (⟨-1, true⟩, buf, false)
      else if st.silence_start = -1 then
        if st.did_speak then
          (⟨inp.now, st.did_speak⟩, buf, false)
        else
          (st, buf, false)
      else if inp.now - st.silence_start ≥ MAX_SILENCE_BREAK then
        (refresh_observer st, buf, true)
      else
        (st, buf, false)

/-- Iterate `silent_observer` over a list of inputs, collecting the boundary
flag returned by each call. -/
def runObserver : TimingState → List Nat → List StepInput →
    TimingState × List Nat × List Bool
  | st, buf, [] => (st, buf, [])
  | st, buf, inp :: rest =>
    let r := silent_observer st buf inp
    let r2 := runObserver r.1 r.2.1 rest
    (r2.1, r2.2.1, r.2.2 :: r2.2.2)

/-- A frame of the full fixed byte length, as delivered by a healthy read. -/
def fullFrame : List Nat := List.replicate FRAME_BYTES 0

/-- The input of the k-th call in the periodic scenarios: a full-length
frame, a successful VAD classification `sp`, and the clock at `k * 30` ms. -/
def frameAt (sp : Bool) (k : Nat) : StepInput :=
  ⟨fullFrame, some sp, (k : ℚ) * (3 / 100)⟩

/-- Scenario inputs: one speech frame (frame 1) followed by `n` non-speech
frames, all 30 ms apart. -/
def speechThenSilence (n : Nat) : List StepInput :=
  frameAt true 1 :: ((List.range n).map fun i => frameAt false (i + 2))

/-- Scenario of claim C6: 37 frames, 30 ms apart; frames 1 and 17 are
speech, all others non-speech. -/
def c6Inputs : List StepInput :=
  frameAt true 1 ::
    (((List.range 15).map fun i => frameAt false (i + 2)) ++
      (frameAt true 17 :: ((List.range 20).map fun i => frameAt false (i + 18))))

/-- A call input whose read is complete but whose VAD classification raises
(at clock value 1). -/
def vadErrInput : StepInput := ⟨fullFrame, none, 1⟩

/-- An input is dropped by the step when the read is short (wrong byte
count) or the classifier raises; otherwise its frame is appended. -/
def nonDropped (inp : StepInput) : Bool :=
  (inp.frame.length == FRAME_BYTES) && inp.vadResult.isSome

/-- The classification of the most recent successfully classified frame,
updated by one call: a dropped frame (short read or VAD error) leaves it
unchanged, a classified frame replaces it. -/
def observedClass (last : Option Bool) (inp : StepInput) : Option Bool :=
  if inp.frame.length ≠ FRAME_BYTES then last
  else
    match inp.vadResult with
    | none => last
    | some b => some b

/-- The ObserverState invariant of the data model: `silence_start` is set
(not the `-1` sentinel) only while `did_speak` is true and the most recent
classified frame was non-speech. -/
def stateInv (st : TimingState) (last : Option Bool) : Prop :=
  st.silence_start ≠ -1 → st.did_speak = true ∧ last = some false

/-! ### Evaluation lemmas for single calls -/

lemma length_fullFrame : fullFrame.length = FRAME_BYTES := by
  simp [fullFrame]

lemma so_shortRead (st : TimingState) (buf : List Nat) (inp : StepInput)
    (h : inp.frame.length ≠ FRAME_BYTES) :
    silent_observer st buf inp = (st, buf, false) := by
  simp [silent_observer, h]

lemma so_vadError (st : TimingState) (buf : List Nat) (inp : StepInput)
    (h : inp.vadResult = none) :
    silent_observer st buf inp = (st, buf, false) := by
  unfold silent_observer
  rw [h]
  split <;> rfl

lemma so_speech (s : ℚ) (b : Bool) (buf : List Nat) (now : ℚ) :
    silent_observer ⟨s, b⟩ buf ⟨fullFrame, some true, now⟩ =
      (⟨-1, true⟩, buf ++ fullFrame, false) := by
  simp [silent_observer, length_fullFrame]

lemma so_sil_fresh_true (buf : List Nat) (now : ℚ) :
    silent_observer ⟨-1, true⟩ buf ⟨fullFrame, some false, now⟩ =
      (⟨now, true⟩, buf ++ fullFrame, false) := by
  simp [silent_observer, length_fullFrame]

lemma so_sil_fresh_false (buf : List Nat) (now : ℚ) :
    silent_observer ⟨-1, false⟩ buf ⟨fullFrame, some false, now⟩ =
      (⟨-1, false⟩, buf ++ fullFrame, false) := by
  simp [silent_observer, length_fullFrame]

lemma so_sil_below (s : ℚ) (b : Bool) (buf : List Nat) (now : ℚ)
    (h1 : ¬ s = -1) (h2 : now - s < MAX_SILENCE_BREAK) :
    silent_observer ⟨s, b⟩ buf ⟨fullFrame, some false, now⟩ =
      (⟨s, b⟩, buf ++ fullFrame, false) := by
  simp [silent_observer, length_fullFrame, h1, not_le.mpr h2]

lemma so_sil_done (s : ℚ) (b : Bool) (buf : List Nat) (now : ℚ)
    (h1 : ¬ s = -1) (h2 : MAX_SILENCE_BREAK ≤ now - s) :
    silent_observer ⟨s, b⟩ buf ⟨fullFrame, some false, now⟩ =
      (⟨-1, false⟩, buf ++ fullFrame, true) := by
  simp [silent_observer, refresh_observer, length_fullFrame, h1, h2]

/-! ### Buffer shape of a single call and of a run -/

lemma so_buf (st : TimingState) (buf : List Nat) (inp : StepInput) :
    (silent_observer st buf inp).2.1 =
      if nonDropped inp then buf ++ inp.frame else buf := by
  unfold silent_observer
  split
  · rename_i h
    simp [nonDropped, beq_iff_eq, h]
  · rename_i h
    split
    · rename_i hv
      simp [nonDropped, hv]
    · rename_i sp hv
      have hn : nonDropped inp = true := by
        simp [nonDropped, beq_iff_eq, not_not.mp h, hv]
      cases sp
      · simp [hn]
        split_ifs <;> rfl
      · simp [hn]

lemma so_flag_or_state (st : TimingState) (buf buf2 : List Nat)
    (inp : StepInput) : (silent_observer st buf inp).2.2 =
      (silent_observer st buf2 inp).2.2 ∧
      (silent_observer st buf inp).1 = (silent_observer st buf2 inp).1 := by
  unfold silent_observer
  split
  · exact ⟨rfl, rfl⟩
  · split
    · exact ⟨rfl, rfl⟩
    · split_ifs <;> exact ⟨rfl, rfl⟩

lemma nonDropped_length (inp : StepInput) (h : nonDropped inp = true) :
    inp.frame.length = FRAME_BYTES := by
  have := (Bool.and_eq_true _ _).mp h
  exact beq_iff_eq.mp this.1

lemma runObserver_buf_shape (l : List StepInput) : ∀ st buf,
    ∃ t, (runObserver st buf l).2.1 = buf ++ t ∧
      t.length = FRAME_BYTES * (l.countP nonDropped) := by
  induction l with
  | nil =>
    intro st buf
    exact ⟨[], by simp [runObserver], by simp⟩
  | cons inp rest ih =>
    intro st buf
    obtain ⟨t, ht, hlen⟩ :=
      ih (silent_observer st buf inp).1 (silent_observer st buf inp).2.1
    by_cases hn : nonDropped inp
    · refine ⟨inp.frame ++ t, ?_, ?_⟩
      · simp only [runObserver]
        rw [ht, so_buf]
        simp [hn, List.append_assoc]
      · simp [List.countP_cons, hn, hlen, nonDropped_length inp hn,
          Nat.mul_add, Nat.add_comm]
    · refine ⟨t, ?_, ?_⟩
      · simp only [runObserver]
        rw [ht, so_buf]
        simp [hn]
      · simp [List.countP_cons, hn, hlen]

lemma so_reset_no_speech (buf : List Nat) (inp : StepInput)
    (h : inp.vadResult ≠ some true) :
    (silent_observer ⟨-1, false⟩ buf inp).1 = ⟨-1, false⟩ ∧
      (silent_observer ⟨-1, false⟩ buf inp).2.2 = false := by
  unfold silent_observer
  split
  · exact ⟨rfl, rfl⟩
  · split
    · exact ⟨rfl, rfl⟩
    · rename_i sp hv
      cases sp
      · simp
      · exact absurd hv h

lemma runObserver_no_speech (l : List StepInput) : ∀ buf,
    (∀ inp ∈ l, inp.vadResult ≠ some true) →
      (runObserver ⟨-1, false⟩ buf l).1 = ⟨-1, false⟩ ∧
      ∀ b ∈ (runObserver ⟨-1, false⟩ buf l).2.2, b = false := by
  induction l with
  | nil =>
    intro buf _
    exact ⟨rfl, by simp [runObserver]⟩
  | cons inp rest ih =>
    intro buf h
    have h1 := so_reset_no_speech buf inp (h inp (by simp))
    have ih2 := ih (silent_observer ⟨-1, false⟩ buf inp).2.1
      (fun i hi => h i (List.mem_cons_of_mem _ hi))
    constructor
    · simp only [runObserver]
      rw [h1.1]
      exact ih2.1
    · simp only [runObserver]
      intro b hb
      rcases List.mem_cons.mp hb with rfl | hb2
      · exact h1.2
      · have := ih2.2 b
        rw [h1.1] at hb2
        exact this hb2

lemma stateInv_step (st : TimingState) (last : Option Bool)
    (buf : List Nat) (inp : StepInput) (h : stateInv st last) :
    stateInv (silent_observer st buf inp).1 (observedClass last inp) := by
  by_cases hl : inp.frame.length ≠ FRAME_BYTES
  · simpa [silent_observer, observedClass, hl] using h
  · rcases hv : inp.vadResult with _ | sp
    · simpa [silent_observer, observedClass, hl, hv] using h
    · cases sp
      · by_cases hs : st.silence_start = -1
        · by_cases hd : st.did_speak = true
          · simp [silent_observer, observedClass, stateInv, hl, hv, hs, hd]
          · simp [silent_observer, observedClass, stateInv, hl, hv, hs, hd]
        · by_cases hth : inp.now - st.silence_start ≥ MAX_SILENCE_BREAK
          · simp [silent_observer, observedClass, stateInv, refresh_observer,
              hl, hv, hs, hth]
          · have h2 := h hs
            simp [silent_observer, observedClass, stateInv, hl, hv, hs, hth, h2.1]
      · simp [silent_observer, observedClass, stateInv, hl, hv]

lemma nonDropped_frameAt (sp : Bool) (k : Nat) :
    nonDropped (frameAt sp k) = true := by
  simp [nonDropped, frameAt, length_fullFrame]

lemma countP_speechThenSilence (n : Nat) :
    (speechThenSilence n).countP nonDropped = n + 1 := by
  have hall : ∀ inp ∈ speechThenSilence n, nonDropped inp = true := by
    intro inp hi
    rcases List.mem_cons.mp hi with rfl | hi2
    · exact nonDropped_frameAt true 1
    · obtain ⟨i, _, rfl⟩ := List.mem_map.mp hi2
      exact nonDropped_frameAt false _
  rw [List.countP_eq_length.mpr hall]
  simp [speechThenSilence]

/-! ### Claim theorems -/

/-- C3: for every state and every frame on which the classifier raises an
error, the step returns `boundaryReached = false` with the buffer unchanged
(no bytes appended) and the state unchanged; the exception never
propagates — the call returns a normal result. -/
theorem C3_classifier_error_leaves_all_unchanged
    (st : TimingState) (buf : List Nat) (inp : StepInput)
    (h : inp.vadResult = none) :
    silent_observer st buf inp = (st, buf, false) :=
  so_vadError st buf inp h

/-- Witness for C3: a concrete VAD-error call from the reset state. -/
theorem C3_witness :
    silent_observer ⟨-1, false⟩ [] vadErrInput = (⟨-1, false⟩, [], false) :=
  C3_classifier_error_leaves_all_unchanged ⟨-1, false⟩ [] vadErrInput rfl

/-- C2 counterexample: on a full-length frame whose classification raises,
the frame is NOT appended to the buffer — the buffer comes back empty
rather than one frame long, refuting "the frame is still appended". -/
theorem C2_counterexample :
    vadErrInput.frame.length = FRAME_BYTES ∧ vadErrInput.vadResult = none ∧
      (silent_observer ⟨-1, true⟩ [] vadErrInput).2.1 = [] := by
  refine ⟨length_fullFrame, rfl, ?_⟩
  rw [so_vadError _ _ _ rfl]

/-- C2 (amended): on a classifier error the step recovers locally — the
call returns normally with `boundaryReached = false`, the timing state is
unchanged, and the frame is dropped (the buffer is unchanged, not
appended to). -/
theorem C2_classifier_error_recovered (st : TimingState) (buf : List Nat)
    (inp : StepInput) (h : inp.vadResult = none) :
    (silent_observer st buf inp).1 = st ∧
      (silent_observer st buf inp).2.1 = buf ∧
      (silent_observer st buf inp).2.2 = false := by
  rw [so_vadError st buf inp h]
  exact ⟨rfl, rfl, rfl⟩

/-- Witness for C2 (amended): a VAD-error call during a silence run. -/
theorem C2_witness :
    (silent_observer ⟨0, true⟩ [] vadErrInput).1 = ⟨0, true⟩ ∧
      (silent_observer ⟨0, true⟩ [] vadErrInput).2.1 = [] ∧
      (silent_observer ⟨0, true⟩ [] vadErrInput).2.2 = false :=
  C2_classifier_error_recovered ⟨0, true⟩ [] vadErrInput rfl

/-- C5: a short read (fewer bytes than `FRAME_BYTES`) returns immediately
with `boundaryReached = false`, the buffer unchanged and the timing state
unchanged. -/
theorem C5_short_read_drops_frame (st : TimingState) (buf : List Nat)
    (inp : StepInput) (h : inp.frame.length < FRAME_BYTES) :
    silent_observer st buf inp = (st, buf, false) :=
  so_shortRead st buf inp (Nat.ne_of_lt h)

/-- Witness for C5: an empty read mid-silence-run. -/
theorem C5_witness :
    (⟨[], some true, 0⟩ : StepInput).frame.length < FRAME_BYTES ∧
      silent_observer ⟨-1, true⟩ [] ⟨[], some true, 0⟩ =
        (⟨-1, true⟩, [], false) := by
  have h : (⟨[], some true, 0⟩ : StepInput).frame.length < FRAME_BYTES := by
    norm_num [FRAME_BYTES, SAMPLE_RATE, FRAME_MS]
  exact ⟨h, C5_short_read_drops_frame ⟨-1, true⟩ [] ⟨[], some true, 0⟩ h⟩

/-- C10 (implicit): whenever `silence_start` is unset, a non-speech frame
returns `boundaryReached = false` — that call at most records the start of
the silence run, performing no threshold comparison, whatever the clock
value. -/
theorem C10_unset_silence_no_boundary (st : TimingState) (buf : List Nat)
    (inp : StepInput) (h1 : st.silence_start = -1)
    (h2 : inp.vadResult = some false) :
    (silent_observer st buf inp).2.2 = false := by
  unfold silent_observer
  rw [h2]
  split
  · rfl
  · cases hd : st.did_speak <;> simp [h1, hd]

/-- Witness for C10: a non-speech frame with an arbitrarily late clock and
`silence_start` unset still declares no boundary. -/
theorem C10_witness :
    (silent_observer ⟨-1, true⟩ [] ⟨fullFrame, some false, 1000⟩).2.2 =
      false :=
  C10_unset_silence_no_boundary ⟨-1, true⟩ [] ⟨fullFrame, some false, 1000⟩
    rfl rfl

/-- C7: whenever the step declares a boundary, the resulting timing state is
the internally performed reset, equals the timing state right after
`start_observer`, and a further `refresh_observer` is a no-op on it. -/
theorem C7_boundary_is_reset (st : TimingState) (buf : List Nat)
    (inp : StepInput) (h : (silent_observer st buf inp).2.2 = true) :
    (silent_observer st buf inp).1 = refresh_observer st ∧
      (silent_observer st buf inp).1 = start_observer_timing ∧
      refresh_observer (silent_observer st buf inp).1 =
        (silent_observer st buf inp).1 := by
  by_cases hl : inp.frame.length ≠ FRAME_BYTES
  · rw [so_shortRead st buf inp hl] at h
    simp at h
  · rcases hv : inp.vadResult with _ | sp
    · rw [so_vadError st buf inp hv] at h
      simp at h
    · cases sp
      · by_cases hs : st.silence_start = -1
        · cases hd : st.did_speak <;> simp [silent_observer, hl, hv, hs, hd] at h
        · by_cases hth : inp.now - st.silence_start ≥ MAX_SILENCE_BREAK
          · simp [silent_observer, hl, hv, hs, hth, refresh_observer,
              start_observer_timing]
          · simp [silent_observer, hl, hv, hs, hth] at h
      · simp [silent_observer, hl, hv] at h

/-- Witness for C7: a boundary-declaring call (silence began at clock 0,
current clock 1 ≥ 0.6). -/
theorem C7_witness :
    (silent_observer ⟨0, true⟩ [] ⟨fullFrame, some false, 1⟩).1 =
        refresh_observer ⟨0, true⟩ ∧
      (silent_observer ⟨0, true⟩ [] ⟨fullFrame, some false, 1⟩).1 =
        start_observer_timing ∧
      refresh_observer
          (silent_observer ⟨0, true⟩ [] ⟨fullFrame, some false, 1⟩).1 =
        (silent_observer ⟨0, true⟩ [] ⟨fullFrame, some false, 1⟩).1 :=
  C7_boundary_is_reset ⟨0, true⟩ [] ⟨fullFrame, some false, 1⟩
    (by rw [so_sil_done 0 true [] 1 (by norm_num)
      (by norm_num [MAX_SILENCE_BREAK])])

/-- C4: starting from the reset state, a run in which no frame is ever
classified as speech never declares a boundary, however long; moreover the
timing state never leaves the reset state. -/
theorem C4_no_boundary_without_speech (buf : List Nat)
    (l : List StepInput) (h : ∀ inp ∈ l, inp.vadResult ≠ some true) :
    (runObserver start_observer_timing buf l).1 = start_observer_timing ∧
      ∀ b ∈ (runObserver start_observer_timing buf l).2.2, b = false :=
  runObserver_no_speech l buf h

/-- Witness for C4: a concrete all-non-speech run (one silence frame, one
classifier error) declares no boundary. -/
theorem C4_witness :
    (runObserver start_observer_timing []
          [frameAt false 1, vadErrInput]).1 = start_observer_timing ∧
      ∀ b ∈ (runObserver start_observer_timing []
          [frameAt false 1, vadErrInput]).2.2, b = false :=
  C4_no_boundary_without_speech [] [frameAt false 1, vadErrInput]
    (by
      intro inp hi
      rcases List.mem_cons.mp hi with rfl | hi2
      · simp [frameAt]
      · rcases List.mem_cons.mp hi2 with rfl | hi3
        · simp [vadErrInput]
        · simp at hi3)

/-- C8: the fixed frame byte length is 960 (30 ms at 16 kHz, 16-bit mono),
and for every run the buffer grows append-only by exactly 960 bytes per
non-dropped frame: its length is the initial length plus 960 times the
number of non-dropped frames, and the initial buffer stays a prefix. -/
theorem C8_buffer_growth :
    FRAME_BYTES = 960 ∧
      ∀ (st : TimingState) (buf : List Nat) (l : List StepInput),
        (runObserver st buf l).2.1.length =
            buf.length + 960 * (l.countP nonDropped) ∧
          ∃ t, (runObserver st buf l).2.1 = buf ++ t := by
  have hfb : FRAME_BYTES = 960 := by norm_num [FRAME_BYTES, SAMPLE_RATE, FRAME_MS]
  refine ⟨hfb, ?_⟩
  intro st buf l
  obtain ⟨t, ht, hlen⟩ := runObserver_buf_shape l st buf
  constructor
  · rw [ht]
    simp [hlen, hfb]
  · exact ⟨t, ht⟩

/-- C9: the ObserverState invariant — `silence_start` is set only while
`did_speak` is true and the most recent classified frame was non-speech —
holds after `start_observer`, is preserved by every `silent_observer`
call, and is (re-)established by `refresh_observer`. -/
theorem C9_observer_invariant :
    stateInv start_observer_timing none ∧
      (∀ (st : TimingState) (last : Option Bool) (buf : List Nat)
          (inp : StepInput), stateInv st last →
        stateInv (silent_observer st buf inp).1 (observedClass last inp)) ∧
      ∀ (st : TimingState) (last : Option Bool),
        stateInv (refresh_observer st) last := by
  refine ⟨?_, fun st last buf inp h => stateInv_step st last buf inp h, ?_⟩
  · intro hne
    simp [start_observer_timing] at hne
  · intro st last hne
    simp [refresh_observer] at hne

/-- Witness for C9: preservation applied at a concrete speech-start state
and non-speech frame. -/
theorem C9_witness :
    stateInv (silent_observer ⟨-1, true⟩ [] (frameAt false 2)).1
      (observedClass (some true) (frameAt false 2)) :=
  C9_observer_invariant.2.1 ⟨-1, true⟩ (some true) [] (frameAt false 2)
    (by intro hne; simp at hne)

/-- C1 counterexample: in the claimed scenario itself — reset state, then
1 speech frame followed by 20 non-speech frames, 30 ms apart — the run of
21 frames declares NO boundary at all: every returned flag is false, so
the boundary is not declared on frame 21. -/
theorem C1_counterexample :
    (speechThenSilence 20).length = 21 ∧
      (runObserver start_observer_timing [] (speechThenSilence 20)).2.2 =
        List.replicate 21 false := by
  constructor
  · simp [speechThenSilence]
  · norm_num [speechThenSilence, List.range_succ, runObserver, frameAt,
      start_observer_timing, so_speech, so_sil_fresh_true, so_sil_fresh_false,
      so_sil_below, so_sil_done, MAX_SILENCE_BREAK, List.replicate]

/-- C1 (amended): in the same scenario the boundary is declared exactly on
frame 22 — the first frame at which the elapsed time since `silence_start`
(recorded on the first non-speech frame) reaches the 0.6 s threshold — and
the returned buffer then contains 22 frames (22 × FRAME_BYTES bytes). -/
theorem C1_boundary_on_frame_22 :
    (speechThenSilence 21).length = 22 ∧
      (runObserver start_observer_timing [] (speechThenSilence 21)).2.2 =
        List.replicate 21 false ++ [true] ∧
      (runObserver start_observer_timing [] (speechThenSilence 21)).2.1.length =
        22 * FRAME_BYTES := by
  refine ⟨by simp [speechThenSilence], ?_, ?_⟩
  · norm_num [speechThenSilence, List.range_succ, runObserver, frameAt,
      start_observer_timing, so_speech, so_sil_fresh_true, so_sil_fresh_false,
      so_sil_below, so_sil_done, MAX_SILENCE_BREAK, List.replicate]
  · obtain ⟨t, ht, hlen⟩ :=
      runObserver_buf_shape (speechThenSilence 21) start_observer_timing []
    rw [ht]
    simp [hlen, countP_speechThenSilence, Nat.mul_comm]

/-- C6: a speech frame arriving while a silence run is in progress
(`silence_start` set) resets `silence_start` to unset and sets `did_speak`,
so previously accumulated silence never counts toward a later boundary;
and in the scenario 1 speech, 15 silence, 1 speech, 20 silence frames
(30 ms apart, threshold 0.6 s) no boundary occurs until frame 37. -/
theorem C6_speech_resets_silence :
    (∀ (s : ℚ) (b : Bool) (buf : List Nat) (inp : StepInput),
        s ≠ -1 → inp.frame.length = FRAME_BYTES → inp.vadResult = some true →
          silent_observer ⟨s, b⟩ buf inp =
            (⟨-1, true⟩, buf ++ inp.frame, false)) ∧
      (runObserver start_observer_timing [] c6Inputs).2.2.take 36 =
        List.replicate 36 false := by
  constructor
  · intro s b buf inp hs hl hv
    simp [silent_observer, hl, hv]
  · norm_num [c6Inputs, List.range_succ, runObserver, frameAt,
      start_observer_timing, so_speech, so_sil_fresh_true, so_sil_fresh_false,
      so_sil_below, so_sil_done, MAX_SILENCE_BREAK, List.replicate,
      List.take_succ_cons]

/-- Witness for C6: a speech frame at clock 17 × 30 ms interrupting a
silence run that began at clock 60 ms. -/
theorem C6_witness :
    silent_observer ⟨3 / 50, true⟩ [] (frameAt true 17) =
      (⟨-1, true⟩, [] ++ fullFrame, false) :=
  C6_speech_resets_silence.1 (3 / 50) true [] (frameAt true 17)
    (by norm_num) length_fullFrame rfl
